import Mathlib

/-!
Verification of the route handlers in `src/main.py` (a FastAPI tutorial app).

Each Python handler is embedded as a pure Lean function producing an ordered
association list of JSON values, mirroring the Python dict it returns
(all keys inserted are distinct, so insertion-ordered append is exact).
The framework glue (enum path validation, integer coercion of path segments,
pydantic body validation, route precedence) is modelled from the spec and the
type annotations in the source, since the framework itself is third-party.
-/

namespace FastapiStudy

/-- JSON values appearing in the responses of this app. -/
inductive JVal : Type
  | s (v : String)
  | i (v : Int)
  | num (v : Rat)
  | b (v : Bool)
  | null
deriving DecidableEq, Repr

/-- A response body: an insertion-ordered JSON object, as a Python dict. -/
abbrev Response := List (String × JVal)

/-- First-match key lookup in a response object. -/
def jget (r : Response) (k : String) : Option JVal :=
  match r with
  | [] => none
  | (k', v) :: rest => if k' = k then some v else jget rest k

/-- Request-body JSON, for the PUT /items endpoint. -/
inductive Json : Type
  | str (v : String)
  | num (v : Rat)
  | bool (v : Bool)
  | null
  | arr (vs : List Json)
  | obj (fields : List (String × Json))
deriving Repr

/-- The `Item` pydantic model from `src/main.py`: name, optional description,
price, optional tax. JSON numbers are represented exactly as rationals since
the program performs no arithmetic on them. -/
structure Item : Type where
  name : String
  description : Option String := none
  price : Rat
  tax : Option Rat := none
deriving DecidableEq, Repr

/-- The `ModelName` str-Enum from `src/main.py`. -/
inductive ModelName : Type
  | alexnet
  | resnet
  | lenet
deriving DecidableEq, Repr

/-- The string value of each `ModelName` member. -/
def ModelName.value : ModelName → String
  | .alexnet => "ALEXNET"
  | .resnet => "RESNET"
  | .lenet => "LENET"

/-- Handler for GET / : returns a fixed greeting object. -/
def root : Response := [("message", JVal.s "Hello World")]

/-- The fixed description text used by `read_item` and `read_user_item`. -/
def descriptionText : String :=
  "This is an amazing item that has a long description"

/-- Handler for GET /items/\x7bitem_id\x7d. Starts from the item_id entry,
adds "q" when `q` is truthy (present and non-empty, Python `if q:`), and
adds "description" when `short` is false. -/
def read_item (item_id : String) (q : Option String) (short : Bool) : Response :=
  let item : Response := [("item_id", JVal.s item_id)]
  let item := match q with
    | some s => if s.isEmpty then item else item ++ [("q", JVal.s s)]
    | none => item
  if short then item else item ++ [("description", JVal.s descriptionText)]

/-- Handler for GET /users/me. -/
def read_user_me : Response := [("user_id", JVal.s "I am you.")]

/-- Handler for GET /users/\x7buser_id\x7d. -/
def read_user (user_id : String) : Response := [("user_id", JVal.s user_id)]

/-- Handler for GET /models/\x7bmodel_name\x7d. The enum member is serialized
to its string value in the response, as the framework does on return. -/
def get_model (model_name : ModelName) : Response :=
  if model_name = ModelName.alexnet then
    [("model_name", JVal.s model_name.value), ("message", JVal.s "Deep Learning FTW!")]
  else if model_name.value = ModelName.lenet.value then
    [("model_name", JVal.s model_name.value), ("message", JVal.s "LeCNN all the images")]
  else
    [("model_name", JVal.s model_name.value), ("message", JVal.s "Have some residuals")]

/-- Handler for GET /files/\x7bfile_path:path\x7d: echoes the captured path. -/
def read_file (file_path : String) : Response := [("file_path", JVal.s file_path)]

/-- Handler for GET /users/\x7buser_id\x7d/items/\x7bitem_id\x7d. -/
def read_user_item (user_id : Int) (item_id : String) (q : Option String)
    (short : Bool) : Response :=
  let item : Response := [("item_id", JVal.s item_id), ("owner_id", JVal.i user_id)]
  let item := match q with
    | some s => if s.isEmpty then item else item ++ [("q", JVal.s s)]
    | none => item
  if short then item else item ++ [("description", JVal.s descriptionText)]

/-- Serialization of an optional string field, as in `model_dump`. -/
def jOfOptStr : Option String → JVal
  | none => JVal.null
  | some s => JVal.s s

/-- Serialization of an optional number field, as in `model_dump`. -/
def jOfOptNum : Option Rat → JVal
  | none => JVal.null
  | some n => JVal.num n

/-- `Item.model_dump`: all four declared fields in declaration order,
omitted optionals appearing as null. -/
def Item.model_dump (it : Item) : Response :=
  [("name", JVal.s it.name), ("description", jOfOptStr it.description),
   ("price", JVal.num it.price), ("tax", jOfOptNum it.tax)]

/-- Handler for PUT /items/\x7bitem_id\x7d: the item_id entry merged with the
dump of the validated body. All keys are distinct, so the merge is an append. -/
def create_item (item_id : Int) (item : Item) : Response :=
  ("item_id", JVal.i item_id) :: item.model_dump

/-- Modelled from the spec: framework validation of the enum path parameter of
GET /models — the segment must equal one of the three member values, otherwise
a framework-generated validation error is produced and the handler never runs. -/
def ModelName.ofString? (s : String) : Option ModelName :=
  if s = "ALEXNET" then some ModelName.alexnet
  else if s = "RESNET" then some ModelName.resnet
  else if s = "LENET" then some ModelName.lenet
  else none

/-- A framework-generated validation error (no custom error shape exists). -/
abbrev ValidationError := Unit

/-- Modelled from the spec: the GET /models endpoint as seen on the wire —
the raw segment is validated against the enum before `get_model` is invoked. -/
def modelsEndpoint (seg : String) : Except ValidationError Response :=
  match ModelName.ofString? seg with
  | some m => Except.ok (get_model m)
  | none => Except.error ()

/-- The numeric value of a decimal digit character, if it is one. -/
def decDigit? (c : Char) : Option Nat :=
  if c.isDigit then some (c.toNat - 48) else none

/-- The value of a non-empty all-digit character list, read in base 10. -/
def digitsVal : List Char → Option Nat
  | [] => none
  | cs => cs.foldl (fun acc c => acc.bind fun n =>
      (decDigit? c).map fun d => 10 * n + d) (some 0)

/-- Modelled from the spec: framework integer coercion of a path segment —
an optional sign followed by at least one decimal digit. -/
def parseIntSeg (s : String) : Option Int :=
  match s.toList with
  | '-' :: rest => (digitsVal rest).map fun n => -(n : Int)
  | '+' :: rest => (digitsVal rest).map fun n => (n : Int)
  | cs => (digitsVal cs).map fun n => (n : Int)

/-- Modelled from the spec: the GET /users/.../items/... endpoint as seen on
the wire — user_id is coerced to an integer before `read_user_item` runs. -/
def userItemsEndpoint (user_id : String) (item_id : String) (q : Option String)
    (short : Bool) : Except ValidationError Response :=
  match parseIntSeg user_id with
  | some n => Except.ok (read_user_item n item_id q short)
  | none => Except.error ()

/-- Helper for pydantic validation of an optional string field: absent or
null gives none, a string gives some, anything else fails. -/
def optStrField (fields : List (String × Json)) (k : String) :
    Option (Option String) :=
  match fields.lookup k with
  | none => some none
  | some Json.null => some none
  | some (Json.str s) => some (some s)
  | some _ => none

/-- Helper for pydantic validation of an optional number field. -/
def optNumField (fields : List (String × Json)) (k : String) :
    Option (Option Rat) :=
  match fields.lookup k with
  | none => some none
  | some Json.null => some none
  | some (Json.num n) => some (some n)
  | some _ => none

/-- Modelled from the spec: pydantic validation of the `Item` request body —
the body must be a JSON object with a string "name", a number "price", and
optional "description" (string) and "tax" (number); otherwise validation
fails and the handler is not invoked. -/
def Item.validate : Json → Option Item
  | Json.obj fields => do
    let name ← fields.lookup "name" >>= fun j =>
      match j with | Json.str s => some s | _ => none
    let price ← fields.lookup "price" >>= fun j =>
      match j with | Json.num n => some n | _ => none
    let description ← optStrField fields "description"
    let tax ← optNumField fields "tax"
    some ⟨name, description, price, tax⟩
  | _ => none

/-- Modelled from the spec: the PUT /items endpoint as seen on the wire —
the body is validated against `Item` before `create_item` runs. -/
def putItemsEndpoint (item_id : Int) (body : Json) :
    Except ValidationError Response :=
  match Item.validate body with
  | some it => Except.ok (create_item item_id it)
  | none => Except.error ()

/-- Modelled from the spec (and the source comment at line 69): path
operations are matched in declaration order, so the literal /users/me route,
declared first, takes precedence over /users/\x7buser_id\x7d. -/
def routeUsers (seg : String) : Response :=
  if seg = "me" then read_user_me else read_user seg

/-- A request to the app, one constructor per route, carrying the raw
path/query/body data each route receives. -/
inductive Request : Type
  | rRoot
  | rItems (item_id : String) (q : Option String) (short : Bool)
  | rUsers (seg : String)
  | rModels (seg : String)
  | rFiles (file_path : String)
  | rUserItems (user_id seg : String) (q : Option String) (short : Bool)
  | rPutItems (item_id : Int) (body : Json)

/-- The whole app: dispatches one request to its handler. There is no state
parameter because the source has no module-level mutable state. -/
def handle : Request → Except ValidationError Response
  | Request.rRoot => Except.ok root
  | Request.rItems i q sh => Except.ok (read_item i q sh)
  | Request.rUsers seg => Except.ok (routeUsers seg)
  | Request.rModels seg => modelsEndpoint seg
  | Request.rFiles f => Except.ok (read_file f)
  | Request.rUserItems u i q sh => userItemsEndpoint u i q sh
  | Request.rPutItems i b => putItemsEndpoint i b

/-- Serving a sequence of requests: each is handled independently. -/
def serve (rs : List Request) : List (Except ValidationError Response) :=
  rs.map handle

/-- C10: GET / takes no parameters and always returns exactly the object
with "message" bound to "Hello World". -/
theorem root_returns_hello_world :
    root = [("message", JVal.s "Hello World")] := rfl

/-- C9: GET /models returns the model name with message "Deep Learning FTW!"
for ALEXNET, "LeCNN all the images" for LENET, and the fall-through message
"Have some residuals" exactly for RESNET (every member other than alexnet and
lenet reaches the fall-through branch, and resnet is the only such member). -/
theorem get_model_messages :
    get_model ModelName.alexnet =
      [("model_name", JVal.s "ALEXNET"), ("message", JVal.s "Deep Learning FTW!")]
    ∧ get_model ModelName.lenet =
      [("model_name", JVal.s "LENET"), ("message", JVal.s "LeCNN all the images")]
    ∧ get_model ModelName.resnet =
      [("model_name", JVal.s "RESNET"), ("message", JVal.s "Have some residuals")]
    ∧ ∀ m : ModelName,
        jget (get_model m) "message" = some (JVal.s "Have some residuals") ↔
          m = ModelName.resnet := by
  refine ⟨rfl, rfl, rfl, fun m => ?_⟩
  cases m <;> simp [get_model, ModelName.value, jget]

/-- C6: GET /files echoes the entire captured path unchanged, including
values containing "/" separators, as exactly a file_path entry. -/
theorem read_file_echoes_path :
    (∀ file_path : String, read_file file_path = [("file_path", JVal.s file_path)])
    ∧ read_file "home/johndoe/myfile.txt" =
        [("file_path", JVal.s "home/johndoe/myfile.txt")]
    ∧ (∀ f : String, handle (Request.rFiles f) = Except.ok [("file_path", JVal.s f)]) :=
  ⟨fun _ => rfl, rfl, fun _ => rfl⟩

/-- C5: the literal route GET /users/me, declared first, takes precedence:
/users/me yields the fixed "I am you." object and never binds user_id to
"me", while every other segment v yields the object binding "user_id" to v. -/
theorem users_me_route_precedence (v : String) (h : v ≠ "me") :
    routeUsers "me" = read_user_me
    ∧ read_user_me = [("user_id", JVal.s "I am you.")]
    ∧ routeUsers v = [("user_id", JVal.s v)]
    ∧ routeUsers v = read_user v := by
  refine ⟨rfl, rfl, ?_, ?_⟩ <;> simp [routeUsers, read_user, h]

/-- Witness for C5 at the concrete segment "alice". -/
theorem users_me_route_precedence_witness :
    routeUsers "me" = read_user_me
    ∧ read_user_me = [("user_id", JVal.s "I am you.")]
    ∧ routeUsers "alice" = [("user_id", JVal.s "alice")]
    ∧ routeUsers "alice" = read_user "alice" :=
  users_me_route_precedence "alice" (by decide)

/-- C8: for GET /items and GET /users/.../items/..., supplying q as the
empty string behaves exactly like omitting it (the handlers test truthiness,
not presence), and the "q" key is absent in both cases. -/
theorem empty_q_behaves_like_absent_q :
    ∀ (item_id : String) (short : Bool),
      read_item item_id (some "") short = read_item item_id none short
      ∧ (∀ user_id : Int,
          read_user_item user_id item_id (some "") short =
            read_user_item user_id item_id none short)
      ∧ jget (read_item item_id (some "") short) "q" = none
      ∧ jget (read_item item_id none short) "q" = none := by
  intro item_id short
  refine ⟨rfl, fun _ => rfl, ?_, ?_⟩ <;>
    cases short <;> simp [read_item, jget, descriptionText]

/-- Presence condition for the "q" query parameter: supplied and non-empty. -/
def qPresent : Option String → Bool
  | none => false
  | some s => !s.isEmpty

/-- C1: GET /items always returns "item_id" bound to the path value as a
string; it contains "q" bound to the supplied q exactly when q is supplied
and non-empty; it contains the fixed description exactly when short is
false; and GET /items/42?q=x with short absent returns the concrete object. -/
theorem read_item_response_shape (item_id : String) (q : Option String)
    (short : Bool) :
    jget (read_item item_id q short) "item_id" = some (JVal.s item_id)
    ∧ jget (read_item item_id q short) "q" =
        (if qPresent q then some (JVal.s (q.getD "")) else none)
    ∧ jget (read_item item_id q short) "description" =
        (if short then none else some (JVal.s descriptionText))
    ∧ read_item "42" (some "x") false =
        [("item_id", JVal.s "42"), ("q", JVal.s "x"),
         ("description", JVal.s descriptionText)] := by
  refine ⟨?_, ?_, ?_, by decide⟩ <;>
    rcases q with _ | s <;> cases short <;>
      simp [read_item, jget, qPresent, descriptionText] <;>
      rcases hs : s.isEmpty <;> simp [hs, jget, descriptionText]

/-- C3: GET /models accepts exactly the path values "ALEXNET", "RESNET" and
"LENET"; for every other value the framework produces a validation error and
the handler never runs; when the value is accepted, the response is exactly
the handler's result (no custom error shape exists). -/
theorem models_enum_validation :
    (∀ s : String, (ModelName.ofString? s).isSome ↔
        s = "ALEXNET" ∨ s = "RESNET" ∨ s = "LENET")
    ∧ (∀ s : String, ModelName.ofString? s = none →
        modelsEndpoint s = Except.error ())
    ∧ (∀ m : ModelName, modelsEndpoint m.value = Except.ok (get_model m)) := by
  refine ⟨fun s => ?_, fun s h => ?_, fun m => ?_⟩
  · unfold ModelName.ofString?
    rcases eq_or_ne s "ALEXNET" with h1 | h1 <;>
      rcases eq_or_ne s "RESNET" with h2 | h2 <;>
        rcases eq_or_ne s "LENET" with h3 | h3 <;>
          simp [h1, h2, h3]
  · simp [modelsEndpoint, h]
  · cases m <;> rfl

/-- Witness for C3: a non-member segment is rejected, a member accepted. -/
theorem models_enum_validation_witness :
    modelsEndpoint "SQUEEZENET" = Except.error ()
    ∧ modelsEndpoint "LENET" = Except.ok (get_model ModelName.lenet) :=
  ⟨models_enum_validation.2.1 "SQUEEZENET" (by decide),
   models_enum_validation.2.2 ModelName.lenet⟩

/-- C4: for GET /users/.../items/..., a user_id that does not coerce to an
integer yields a framework validation error; when it coerces to n the handler
runs, and its response always contains "item_id" bound to item_id and
"owner_id" bound to n, contains "q" exactly when q is supplied and non-empty,
and contains the fixed description exactly when short is false. -/
theorem read_user_item_validation_and_shape (user_id : String)
    (item_id : String) (q : Option String) (short : Bool) :
    (parseIntSeg user_id = none →
      userItemsEndpoint user_id item_id q short = Except.error ())
    ∧ (∀ n : Int, parseIntSeg user_id = some n →
        userItemsEndpoint user_id item_id q short =
          Except.ok (read_user_item n item_id q short))
    ∧ (∀ n : Int,
        jget (read_user_item n item_id q short) "item_id" = some (JVal.s item_id)
        ∧ jget (read_user_item n item_id q short) "owner_id" = some (JVal.i n)
        ∧ jget (read_user_item n item_id q short) "q" =
            (if qPresent q then some (JVal.s (q.getD "")) else none)
        ∧ jget (read_user_item n item_id q short) "description" =
            (if short then none else some (JVal.s descriptionText))) := by
  refine ⟨fun h => by simp [userItemsEndpoint, h],
          fun n h => by simp [userItemsEndpoint, h],
          fun n => ⟨?_, ?_, ?_, ?_⟩⟩ <;>
    rcases q with _ | s <;> cases short <;>
      simp [read_user_item, jget, qPresent, descriptionText] <;>
      rcases hs : s.isEmpty <;> simp [hs, jget, descriptionText]

/-- Witness for C4: "abc" is rejected, "7" is accepted and the response of
the handler at 7 has the stated shape. -/
theorem read_user_item_validation_and_shape_witness :
    userItemsEndpoint "abc" "pen" (some "x") false = Except.error ()
    ∧ userItemsEndpoint "7" "pen" (some "x") false =
        Except.ok (read_user_item 7 "pen" (some "x") false)
    ∧ jget (read_user_item 7 "pen" (some "x") false) "owner_id" =
        some (JVal.i 7) :=
  ⟨(read_user_item_validation_and_shape "abc" "pen" (some "x") false).1 (by decide),
   (read_user_item_validation_and_shape "7" "pen" (some "x") false).2.1 7 (by decide),
   ((read_user_item_validation_and_shape "7" "pen" (some "x") false).2.2 7).2.1⟩

/-- C2: a body object with a string "name" and a number "price" (and
"description"/"tax" absent, null, or of the right type) validates, and
PUT /items returns the item_id entry merged with all four Item fields in
declaration order, omitted optionals appearing as null; a body whose "name"
or "price" is missing, or any body that fails Item validation, yields a
framework validation error and the handler is not invoked. -/
theorem create_item_body_validation (item_id : Int)
    (fields : List (String × Json)) (name : String) (price : Rat)
    (d : Option String) (t : Option Rat)
    (hn : fields.lookup "name" = some (Json.str name))
    (hp : fields.lookup "price" = some (Json.num price))
    (hd : optStrField fields "description" = some d)
    (ht : optNumField fields "tax" = some t) :
    Item.validate (Json.obj fields) = some ⟨name, d, price, t⟩
    ∧ putItemsEndpoint item_id (Json.obj fields) =
        Except.ok [("item_id", JVal.i item_id), ("name", JVal.s name),
                   ("description", jOfOptStr d), ("price", JVal.num price),
                   ("tax", jOfOptNum t)]
    ∧ (∀ (i : Int) (fs : List (String × Json)), fs.lookup "name" = none →
        putItemsEndpoint i (Json.obj fs) = Except.error ())
    ∧ (∀ (i : Int) (fs : List (String × Json)), fs.lookup "price" = none →
        putItemsEndpoint i (Json.obj fs) = Except.error ())
    ∧ (∀ (i : Int) (b : Json), Item.validate b = none →
        putItemsEndpoint i b = Except.error ()) := by
  have hv : Item.validate (Json.obj fields) = some ⟨name, d, price, t⟩ := by
    simp [Item.validate, hn, hp, hd, ht]
  refine ⟨hv, ?_, ?_, ?_, ?_⟩
  · simp [putItemsEndpoint, hv, create_item, Item.model_dump]
  · intro i fs h; simp [putItemsEndpoint, Item.validate, h]
  · intro i fs h; simp [putItemsEndpoint, Item.validate, h]
  · intro i b h; simp [putItemsEndpoint, h]

/-- Witness for C2 at a concrete body with name "Foo", price 35, description
absent and tax null. -/
theorem create_item_body_validation_witness :
    putItemsEndpoint 3
        (Json.obj [("name", Json.str "Foo"), ("price", Json.num 35),
                   ("tax", Json.null)]) =
      Except.ok [("item_id", JVal.i 3), ("name", JVal.s "Foo"),
                 ("description", JVal.null), ("price", JVal.num 35),
                 ("tax", JVal.null)]
    ∧ putItemsEndpoint 3 (Json.obj [("price", Json.num 35)]) =
        Except.error () :=
  ⟨(create_item_body_validation 3
      [("name", Json.str "Foo"), ("price", Json.num 35), ("tax", Json.null)]
      "Foo" 35 none none rfl rfl rfl rfl).2.1,
   (create_item_body_validation 3
      [("name", Json.str "Foo"), ("price", Json.num 35), ("tax", Json.null)]
      "Foo" 35 none none rfl rfl rfl rfl).2.2.1 3 [("price", Json.num 35)] rfl⟩

/-- C7: every handler is a deterministic, stateless function of its declared
parameters — equal requests give equal responses, the app carries no state
(serving a list of requests is just an independent map), and handling one
request never affects the result of any other. -/
theorem handlers_deterministic_stateless (r r' : Request) (h : r = r') :
    handle r = handle r'
    ∧ (∀ rs : List Request, serve rs = rs.map handle)
    ∧ (∀ pre post : List Request,
        serve (pre ++ r :: post) = serve pre ++ handle r :: serve post) := by
  subst h
  refine ⟨rfl, fun rs => rfl, fun pre post => ?_⟩
  simp [serve]

/-- Witness for C7 at two equal concrete requests. -/
theorem handlers_deterministic_stateless_witness :
    handle Request.rRoot = handle Request.rRoot
    ∧ serve [Request.rRoot, Request.rUsers "me"] =
        [handle Request.rRoot, handle (Request.rUsers "me")] :=
  ⟨(handlers_deterministic_stateless Request.rRoot Request.rRoot rfl).1,
   ((handlers_deterministic_stateless (Request.rUsers "me")
      (Request.rUsers "me") rfl).2.2 [Request.rRoot] [])⟩

end FastapiStudy
